import Mathlib

/-!
Shallow embedding of the xtra-equip-server Express/MongoDB backend
(`src/unnamed/part_000`, with `src/index.js` an earlier snapshot of the
same file). Documents are association lists of field names to JSON-ish
values; each route handler becomes a pure function from the relevant
collections and request data to a response and the updated collections.
-/

set_option autoImplicit false

namespace XtraEquip

/-- A document field value: MongoDB documents in this service only carry
strings, booleans and (via the Node driver serializing `undefined`) nulls
in the positions the routes inspect. -/
inductive Val where
  | str : String → Val
  | bool : Bool → Val
  | null : Val
deriving DecidableEq, Repr

/-- A MongoDB document, as an association list of field name to value. -/
abbrev Doc := List (String × Val)

/-- Read a field from a document (first binding wins, as in a JSON object). -/
def getField : Doc → String → Option Val
  | [], _ => none
  | kv :: d, k => if kv.1 == k then some kv.2 else getField d k

/-- MongoDB equality match of a query value against a field that may be
absent: `null` in a filter matches both a stored null and a missing field;
any other value only matches a present, equal field. -/
def mongoEqMatch (qv : Val) (fv : Option Val) : Bool :=
  match fv with
  | some v => qv == v
  | none => qv == Val.null

/-- A document satisfies an equality-only filter when every filter pair
matches. -/
def docMatchesEq (q : List (String × Val)) (d : Doc) : Bool :=
  q.all (fun kv => mongoEqMatch kv.2 (getField d kv.1))

/-- `collection.findOne(query)`: the first matching document, if any. -/
def findOne (coll : List Doc) (q : List (String × Val)) : Option Doc :=
  coll.find? (fun d => docMatchesEq q d)

/-- Set one field of a document: replace it in place when present,
append it otherwise (JS property assignment / a `$set` step). -/
def setField : Doc → String → Val → Doc
  | [], k, v => [(k, v)]
  | kv :: d, k, v => if kv.1 == k then (k, v) :: d else kv :: setField d k v

/-- Apply a `$set` update document: set each listed field in turn. -/
def applySet (u : List (String × Val)) (d : Doc) : Doc :=
  u.foldl (fun acc kv => setField acc kv.1 kv.2) d

/-- The document MongoDB inserts on an upsert with no match: the equality
fields of the filter, with the `$set` update applied on top. -/
def upsertDoc (q u : List (String × Val)) : Doc :=
  applySet u q

/-- Update the first document matching the filter with a `$set`. -/
def updateFirst (q u : List (String × Val)) : List Doc → List Doc
  | [] => []
  | d :: ds =>
    if docMatchesEq q d then applySet u d :: ds
    else d :: updateFirst q u ds

/-- Outcome of a driver write against the _id unique index: the new
collection state, or a rejected promise carrying the E11000 duplicate-key
error (the write changed nothing and, in these handlers, no response is
sent — the rejection is unhandled). -/
inductive UpdateResult where
  | ok : List Doc → UpdateResult
  | dupKey : UpdateResult
deriving DecidableEq, Repr

/-- Whether inserting `nd` would violate the _id unique index: `nd`
carries an _id some existing document already has. A document with no _id
of its own gets a freshly generated ObjectId, which never conflicts. -/
def idConflict (coll : List Doc) (nd : Doc) : Bool :=
  match getField nd "_id" with
  | some idv => coll.any (fun d => getField d "_id" == some idv)
  | none => false

/-- `collection.updateOne(query, {$set: u}, {upsert: true/false})` against
a collection with the _id unique index: the first matching document is
updated in place; with no match and upsert on, the driver inserts
`upsertDoc q u` — unless that document carries an _id some existing
document already has, in which case the insert violates the _id index and
the call rejects with E11000, writing nothing. -/
def updateOne (coll : List Doc) (q u : List (String × Val)) (upsert : Bool) :
    UpdateResult :=
  if coll.any (fun d => docMatchesEq q d) then
    UpdateResult.ok (updateFirst q u coll)
  else if upsert then
    if idConflict coll (upsertDoc q u) then UpdateResult.dupKey
    else UpdateResult.ok (coll ++ [upsertDoc q u])
  else UpdateResult.ok coll

/-- `updateOne` on its error-free path, for the one call site whose filter
is a single _id equality and whose `$set` bodies (role/profile fields, as
the /users/seller/:id route sends) never set _id: there a no-match upsert
inserts the filter's own _id, which — precisely because nothing matched
it — no existing document carries, so E11000 cannot fire and the result
is always a collection. -/
def updateOneNoIdConflict (coll : List Doc) (q u : List (String × Val))
    (upsert : Bool) : List Doc :=
  if coll.any (fun d => docMatchesEq q d) then updateFirst q u coll
  else if upsert then coll ++ [upsertDoc q u] else coll

/-- `collection.updateMany(query, {$set: u}, {upsert: ...})`: update every
matching document; insert `upsertDoc` when nothing matches and `upsert` is
set. Returns the new collection. -/
def updateMany (coll : List Doc) (q u : List (String × Val)) (upsert : Bool) :
    List Doc :=
  if coll.any (fun d => docMatchesEq q d) then
    coll.map (fun d => if docMatchesEq q d then applySet u d else d)
  else if upsert then coll ++ [upsertDoc q u] else coll

/-- `collection.deleteOne(query)`: remove the first matching document and
report the deleted count (0 or 1). -/
def deleteOne (coll : List Doc) (q : List (String × Val)) : List Doc × Nat :=
  match coll with
  | [] => ([], 0)
  | d :: ds =>
    if docMatchesEq q d then (ds, 1)
    else
      let r := deleteOne ds q
      (d :: r.1, r.2)

/-- An optional query parameter as the Node driver serializes it in a
filter: a missing (`undefined`) parameter becomes `null`. -/
def qval : Option String → Val
  | some s => Val.str s
  | none => Val.null

/-! ### Authentication middleware (`verifyToken`, src/unnamed/part_000:28-41) -/

/-- Outcome of a middleware: either short-circuit with a status and
message, or call `next` with the decoded email attached to the request. -/
inductive MwResult where
  | stop : Nat → String → MwResult
  | next : String → MwResult
deriving DecidableEq, Repr

/-- `authHeader.split(" ").pop()`: the last space-separated word of the
Authorization header. -/
def extractToken (authHeader : String) : String :=
  (authHeader.splitOn " ").getLastD ""

/-- The `verifyToken` middleware: 401 when the Authorization header is
absent; otherwise extract the token and run `jwt.verify`, answering 403 on
a verification error and passing the decoded email on success. The
verifier is abstracted as a function returning the decoded email claim or
`none` on any signature/expiry failure. -/
def verifyToken (verify : String → Option String) (authHeader : Option String) :
    MwResult :=
  match authHeader with
  | none => MwResult.stop 401 "Unauthorized access"
  | some h =>
    match verify (extractToken h) with
    | none => MwResult.stop 403 "Forbidden access"
    | some decoded => MwResult.next decoded

/-! ### Role middleware (`verifyAdmin`, `verifySeller`,
src/unnamed/part_000:75-93) -/

/-- The stored role of the user record for an email, if any:
`user?.userRole` after `usersCollection.findOne({email})`. -/
def storedRole (users : List Doc) (email : String) : Option Val :=
  (findOne users [("email", Val.str email)]).bind
    (fun u => getField u "userRole")

/-- The `verifyAdmin` middleware: 403 unless the user record found by the
decoded email has `userRole === "admin"`. -/
def verifyAdmin (users : List Doc) (decodedEmail : String) : MwResult :=
  if storedRole users decodedEmail ≠ some (Val.str "admin") then
    MwResult.stop 403 "Forbidden access"
  else MwResult.next decodedEmail

/-- The `verifySeller` middleware: 403 unless the user record found by the
decoded email has `userRole === "seller"`. -/
def verifySeller (users : List Doc) (decodedEmail : String) : MwResult :=
  if storedRole users decodedEmail ≠ some (Val.str "seller") then
    MwResult.stop 403 "Forbidden access"
  else MwResult.next decodedEmail

/-! ### JWT issuance (`jwt.sign`, used by GET /jwt,
src/unnamed/part_000:291-302) -/

/-- A signed JWT as this service uses it: an email claim, issued-at and
expiry times (Unix seconds) and the secret the signature binds it to. -/
structure SignedToken where
  email : String
  iat : Nat
  exp : Nat
  secret : String
deriving DecidableEq, Repr

/-- The jsonwebtoken library call `jwt.sign({email}, secret,
{expiresIn: "10h"})`: the payload gets `iat = now` and
`exp = now + 36000` (10 hours in seconds). -/
def jwtSign (email secret : String) (now : Nat) : SignedToken :=
  { email := email, iat := now, exp := now + 36000, secret := secret }

/-- The jsonwebtoken library call `jwt.verify(token, secret)`: succeeds
with the decoded email claim exactly when the signature was made with the
same secret and the expiry has not passed. -/
def jwtVerify (t : SignedToken) (secret : String) (now : Nat) :
    Option String :=
  if t.secret == secret && decide (now < t.exp) then some t.email else none

/-- Response of GET /jwt: a 401, or a token payload. -/
inductive JwtRes where
  | denied : Nat → String → JwtRes
  | ok : SignedToken → JwtRes
deriving DecidableEq, Repr

/-- GET /jwt?email= handler (src/unnamed/part_000:291-302): look the email
up in the users collection; sign a 10-hour token when a user exists, else
answer 401. -/
def getJwtHandler (users : List Doc) (email : String) (secret : String)
    (now : Nat) : JwtRes :=
  match findOne users [("email", Val.str email)] with
  | some _ => JwtRes.ok (jwtSign email secret now)
  | none => JwtRes.denied 401 "Unauthorized access"

/-! ### GET /categories (src/unnamed/part_000:186-199) -/

/-- A hexadecimal digit as JavaScript `parseInt` accepts after `0x`. -/
def isHexDigitJS (c : Char) : Bool :=
  c.isDigit || ('a' ≤ c && c ≤ 'f') || ('A' ≤ c && c ≤ 'F')

/-- Numeric value of a hexadecimal digit. -/
def hexVal (c : Char) : Nat :=
  if c.isDigit then c.toNat - 48
  else if 'a' ≤ c && c ≤ 'f' then c.toNat - 87
  else c.toNat - 55

/-- JavaScript `parseInt` on a string with no radix argument: trim leading
whitespace, take an optional sign; a `0x`/`0X` prefix switches to the
leading run of hexadecimal digits (radix 16), otherwise the leading run of
decimal digits is taken; NaN (here `none`) when no digit is found. -/
def parseIntJS (s : String) : Option Int :=
  let t := s.data.dropWhile Char.isWhitespace
  let p : Int × List Char :=
    match t with
    | '-' :: rest => (-1, rest)
    | '+' :: rest => (1, rest)
    | _ => (1, t)
  match p.2 with
  | '0' :: x :: rest =>
    if x = 'x' ∨ x = 'X' then
      let hex := rest.takeWhile isHexDigitJS
      if hex.isEmpty then none
      else some (p.1 * (hex.foldl (fun n c => n * 16 + hexVal c) 0 : Nat))
    else
      let digits := p.2.takeWhile Char.isDigit
      if digits.isEmpty then none
      else some (p.1 * (digits.foldl (fun n c => n * 10 + (c.toNat - 48)) 0 : Nat))
  | _ =>
    let digits := p.2.takeWhile Char.isDigit
    if digits.isEmpty then none
    else some (p.1 * (digits.foldl (fun n c => n * 10 + (c.toNat - 48)) 0 : Nat))

/-- GET /categories?limit=N handler: `parseInt` the limit parameter; a
truthy result (a nonzero number) applies `cursor.limit` — which the Mongo
driver treats as "return at most |n| documents" — and a falsy result (no
parameter, no digits, or 0) returns the whole collection. -/
def getCategoriesHandler (cats : List Doc) (limitParam : Option String) :
    List Doc :=
  match limitParam with
  | none => cats
  | some s =>
    match parseIntJS s with
    | none => cats
    | some n => if n = 0 then cats else cats.take n.natAbs

/-! ### GET /categories/:id (src/unnamed/part_000:202-207)

MongoDB's `{category: {$regex: categoryId}}` runs an unanchored regular
expression search over the category string. The engine below embeds the
regex dialect these ids can exercise — literal characters, `.` (any one
character) and the postfix quantifiers `*`, `+`, `?` on a single-character
atom — via Brzozowski derivatives; its correctness against an inductive
match semantics is proved further down. Alternation, groups, classes,
escapes and anchors do not occur in category ids and are out of scope, as
are ids that are regex syntax errors (a leading or doubled quantifier),
which the driver rejects before querying. -/

/-- GET /users/admin/:email handler: `{isAdmin: result?.userRole ===
"admin"}` with the implicit 200 of `res.send`. -/
def getUsersAdminStatus (users : List Doc) (email : String) : Nat × Bool :=
  (200, storedRole users email == some (Val.str "admin"))

/-- GET /users/buyer/:email handler. -/
def getUsersBuyerStatus (users : List Doc) (email : String) : Nat × Bool :=
  (200, storedRole users email == some (Val.str "buyer"))

/-- GET /users/seller/:email handler. -/
def getUsersSellerStatus (users : List Doc) (email : String) : Nat × Bool :=
  (200, storedRole users email == some (Val.str "seller"))

/-! ### POST /users (src/unnamed/part_000:274-288) -/

/-- Response of POST /users. -/
inductive PostUsersRes where
  | already : Nat → String → PostUsersRes
  | inserted : Doc → PostUsersRes
deriving DecidableEq, Repr

/-- JavaScript truthiness of `user?.userRole`: absent, empty string or
`false` are falsy. -/
def isFalsy : Option Val → Bool
  | none => true
  | some (Val.str s) => s == ""
  | some (Val.bool b) => !b
  | some Val.null => true

/-- POST /users handler: default `userRole` to "buyer" when falsy, then
answer 200 "User already exists!" without writing when a user with the
body's email exists, else insert. Returns the response and the updated
collection. -/
def postUsersHandler (users : List Doc) (body : Doc) :
    PostUsersRes × List Doc :=
  let user :=
    if isFalsy (getField body "userRole") then
      setField body "userRole" (Val.str "buyer")
    else body
  match findOne users [("email", (getField user "email").getD Val.null)] with
  | some _ => (PostUsersRes.already 200 "User already exists!", users)
  | none => (PostUsersRes.inserted user, users ++ [user])

/-! ### DELETE /products/:id (src/unnamed/part_000:132-138) -/

/-- DELETE /products/:id?email= handler: `deleteOne({sellerEmail, _id})`,
answering the raw result (status 200, deleted count). Returns
((status, deletedCount), new products collection). -/
def deleteProductHandler (products : List Doc) (productId : String)
    (emailParam : Option String) : (Nat × Nat) × List Doc :=
  let q := [("sellerEmail", qval emailParam), ("_id", Val.str productId)]
  let r := deleteOne products q
  ((200, r.2), r.1)

/-! ### PUT /products/advertisement/:id (src/unnamed/part_000:158-177) -/

/-- PUT /products/advertisement/:id?email= handler:
`updateOne({sellerEmail, _id}, {$set: {isAdvertised: true}},
{upsert: true})`. Returns the driver outcome: the new products collection,
or the E11000 rejection when the upsert insert collides on _id. -/
def putAdvertisementHandler (products : List Doc) (productId : String)
    (emailParam : Option String) : UpdateResult :=
  updateOne products
    [("sellerEmail", qval emailParam), ("_id", Val.str productId)]
    [("isAdvertised", Val.bool true)] true

/-! ### PUT /users/seller/:id (src/unnamed/part_000:248-263) -/

/-- PUT /users/seller/:id?email= handler: upsert-update the user document
matched by `_id` with `$set: body`, then `updateMany` the products whose
`sellerEmail` equals the `email` query parameter with the same `$set`,
also with upsert. Returns (new users collection, new products
collection). -/
def putUsersSellerHandler (users products : List Doc) (userId : String)
    (emailParam : Option String) (body : List (String × Val)) :
    List Doc × List Doc :=
  let users2 := updateOneNoIdConflict users [("_id", Val.str userId)] body true
  let products2 :=
    updateMany products [("sellerEmail", qval emailParam)] body true
  (users2, products2)

/-! ## Helper lemmas -/

theorem mongoEqMatch_str_iff (s : String) (fv : Option Val) :
    mongoEqMatch (Val.str s) fv = true ↔ fv = some (Val.str s) := by
  cases fv with
  | none => simp [mongoEqMatch]
  | some v =>
    simp only [mongoEqMatch, beq_iff_eq, Option.some.injEq]
    exact eq_comm

theorem docMatchesEq_single (d : Doc) (k : String) (v : Val) :
    docMatchesEq [(k, v)] d = mongoEqMatch v (getField d k) := by
  simp only [docMatchesEq, List.all_cons, List.all_nil, Bool.and_true]

theorem docMatchesEq_pair_iff (d : Doc) (k1 k2 s1 s2 : String) :
    docMatchesEq [(k1, Val.str s1), (k2, Val.str s2)] d = true ↔
      getField d k1 = some (Val.str s1) ∧ getField d k2 = some (Val.str s2) := by
  simp only [docMatchesEq, List.all_cons, List.all_nil, Bool.and_true,
    Bool.and_eq_true, mongoEqMatch_str_iff]

theorem getField_setField_ne (d : Doc) (k k2 : String) (v : Val)
    (h : k2 ≠ k) : getField (setField d k v) k2 = getField d k2 := by
  have hk : (k == k2) = false := by
    simp only [beq_eq_false_iff_ne, ne_eq]
    exact fun hc => h hc.symm
  induction d with
  | nil => simp [setField, getField, hk]
  | cons kv tl ih =>
    by_cases h1 : (kv.1 == k) = true
    · have hk1 : kv.1 = k := eq_of_beq h1
      have hk2 : (kv.1 == k2) = false := by
        simp only [beq_eq_false_iff_ne, ne_eq, hk1]
        exact fun hc => h hc.symm
      simp [setField, h1, getField, hk, hk2]
    · have h1f : (kv.1 == k) = false := by simpa using h1
      simp [setField, h1f, getField, ih]

theorem deleteOne_of_no_match (coll : List Doc) (q : List (String × Val))
    (h : ∀ d ∈ coll, docMatchesEq q d = false) :
    deleteOne coll q = (coll, 0) := by
  induction coll with
  | nil => rfl
  | cons d ds ih =>
    have hd := h d (by simp)
    have hds : ∀ x ∈ ds, docMatchesEq q x = false :=
      fun x hx => h x (by simp [hx])
    simp [deleteOne, hd, ih hds]

theorem deleteOne_unique_match (coll : List Doc) (q : List (String × Val))
    (p : Doc) (hp : p ∈ coll) (hm : docMatchesEq q p = true)
    (huniq : ∀ d ∈ coll, docMatchesEq q d = true → d = p)
    (hcount : coll.count p = 1) :
    (deleteOne coll q).2 = 1 ∧ p ∉ (deleteOne coll q).1 := by
  induction coll with
  | nil => cases hp
  | cons d ds ih =>
    by_cases hd : docMatchesEq q d = true
    · have hdp : d = p := huniq d (by simp) hd
      subst hdp
      have h0 : ds.count d = 0 := by
        have := hcount
        rw [List.count_cons_self] at this
        omega
      simp [deleteOne, hd, List.count_eq_zero.mp h0]
    · have hdp : d ≠ p := fun hq => hd (hq ▸ hm)
      have hp2 : p ∈ ds := by
        rcases List.mem_cons.mp hp with h1 | h1
        · exact absurd h1.symm hdp
        · exact h1
      have hc2 : ds.count p = 1 := by
        have := hcount
        rw [List.count_cons_of_ne (fun hq => hdp hq.symm)] at this
        exact this
      have hu2 : ∀ x ∈ ds, docMatchesEq q x = true → x = p :=
        fun x hx => huniq x (by simp [hx])
      have := ih hp2 hu2 hc2
      have heq : deleteOne (d :: ds) q =
          (d :: (deleteOne ds q).1, (deleteOne ds q).2) := by
        simp [deleteOne, hd]
      rw [heq]
      refine ⟨this.1, ?_⟩
      simp only [List.mem_cons, not_or]
      exact ⟨fun hq => hdp hq.symm, this.2⟩

theorem idConflict_some (coll : List Doc) (nd : Doc) (idv : Val)
    (hid : getField nd "_id" = some idv) :
    idConflict coll nd = coll.any (fun d => getField d "_id" == some idv) := by
  unfold idConflict
  rw [hid]

theorem updateOne_upsert_cases (coll : List Doc) (q u : List (String × Val))
    (idv : Val) (hany : coll.any (fun d => docMatchesEq q d) = false)
    (hid : getField (upsertDoc q u) "_id" = some idv) :
    ((∀ d ∈ coll, getField d "_id" ≠ some idv) →
      updateOne coll q u true = UpdateResult.ok (coll ++ [upsertDoc q u]))
    ∧ ((∃ d ∈ coll, getField d "_id" = some idv) →
      updateOne coll q u true = UpdateResult.dupKey) := by
  have hc := idConflict_some coll (upsertDoc q u) idv hid
  constructor
  · intro hi
    have hcf : idConflict coll (upsertDoc q u) = false := by
      rw [hc, List.any_eq_false]
      intro d hd
      simp only [beq_iff_eq]
      exact hi d hd
    simp [updateOne, hany, hcf]
  · intro hi
    have hct : idConflict coll (upsertDoc q u) = true := by
      rw [hc, List.any_eq_true]
      obtain ⟨d, hd, hgd⟩ := hi
      exact ⟨d, hd, by simp [hgd]⟩
    simp [updateOne, hany, hct]

/-! ### Correctness of the regex engine -/

/-- Claim C1: on a route guarded by the authentication middleware, a
request with no Authorization header is answered 401; a request whose
extracted token fails signature or expiry verification is answered 403;
and in both cases the middleware short-circuits with a response instead of
calling the route handler (`MwResult.next` is never produced). -/
theorem C1_verifyToken_guard (verify : String → Option String)
    (authHeader : Option String) :
    (authHeader = none →
      verifyToken verify authHeader = MwResult.stop 401 "Unauthorized access")
    ∧ (∀ hdr, authHeader = some hdr → verify (extractToken hdr) = none →
      verifyToken verify authHeader = MwResult.stop 403 "Forbidden access")
    ∧ (∀ s m, verifyToken verify authHeader = MwResult.stop s m →
      ∀ d, verifyToken verify authHeader ≠ MwResult.next d) := by
  refine ⟨?_, ?_, ?_⟩
  · intro h; subst h; rfl
  · intro hdr h hv; subst h; simp [verifyToken, hv]
  · intro s m hs d hn
    rw [hs] at hn
    cases hn

/-- Witness for C1: a request with no header is answered 401, and a header
whose token the verifier rejects is answered 403. -/
theorem C1_verifyToken_guard_witness :
    verifyToken (fun _ => none) none = MwResult.stop 401 "Unauthorized access"
    ∧ verifyToken (fun _ => none) (some "Bearer tok") =
      MwResult.stop 403 "Forbidden access" :=
  ⟨(C1_verifyToken_guard (fun _ => none) none).1 rfl,
   (C1_verifyToken_guard (fun _ => none) (some "Bearer tok")).2.1
     "Bearer tok" rfl rfl⟩

/-- Claim C2: the role middlewares look the user record up by the decoded
email and answer 403, never proceeding to the handler, whenever the stored
role differs from the required role — including when no user record exists
for that email; in particular a stored admin role fails the seller gate
and a stored seller role fails the admin gate. -/
theorem C2_requireRole_guard (users : List Doc) (email : String) :
    (storedRole users email ≠ some (Val.str "admin") →
      verifyAdmin users email = MwResult.stop 403 "Forbidden access")
    ∧ (storedRole users email ≠ some (Val.str "seller") →
      verifySeller users email = MwResult.stop 403 "Forbidden access")
    ∧ (findOne users [("email", Val.str email)] = none →
      verifyAdmin users email = MwResult.stop 403 "Forbidden access"
        ∧ verifySeller users email = MwResult.stop 403 "Forbidden access")
    ∧ (storedRole users email = some (Val.str "admin") →
      verifySeller users email = MwResult.stop 403 "Forbidden access")
    ∧ (storedRole users email = some (Val.str "seller") →
      verifyAdmin users email = MwResult.stop 403 "Forbidden access") := by
  refine ⟨?_, ?_, ?_, ?_, ?_⟩
  · intro h; simp [verifyAdmin, h]
  · intro h; simp [verifySeller, h]
  · intro h
    constructor
    · simp [verifyAdmin, storedRole, h]
    · simp [verifySeller, storedRole, h]
  · intro h; simp [verifySeller, h]
  · intro h; simp [verifyAdmin, h]

/-- Witness for C2: an admin-role user fails the seller gate, a
seller-role user fails the admin gate, and an email with no user record
fails the admin gate. -/
theorem C2_requireRole_guard_witness :
    verifySeller [[("email", Val.str "a"), ("userRole", Val.str "admin")]] "a"
      = MwResult.stop 403 "Forbidden access"
    ∧ verifyAdmin [[("email", Val.str "s"), ("userRole", Val.str "seller")]]
      "s" = MwResult.stop 403 "Forbidden access"
    ∧ verifyAdmin [] "ghost" = MwResult.stop 403 "Forbidden access" :=
  ⟨(C2_requireRole_guard
      [[("email", Val.str "a"), ("userRole", Val.str "admin")]] "a").2.2.2.1
      (by decide),
   (C2_requireRole_guard
      [[("email", Val.str "s"), ("userRole", Val.str "seller")]] "s").2.2.2.2
      (by decide),
   ((C2_requireRole_guard [] "ghost").2.2.1 (by decide)).1⟩

/-- Claim C5: a POST /users whose body email already has a matching user
record is answered 200 with "User already exists!" and the users
collection is returned unchanged. -/
theorem C5_postUsers_existing (users : List Doc) (body : Doc) (e : String)
    (hbe : getField body "email" = some (Val.str e))
    (hex : findOne users [("email", Val.str e)] ≠ none) :
    postUsersHandler users body =
      (PostUsersRes.already 200 "User already exists!", users) := by
  obtain ⟨w, hw⟩ := Option.ne_none_iff_exists.mp hex
  by_cases hrf : isFalsy (getField body "userRole") = true
  · have hue : getField (setField body "userRole" (Val.str "buyer")) "email"
        = some (Val.str e) := by
      rw [getField_setField_ne _ _ _ _ (by decide)]
      exact hbe
    simp [postUsersHandler, hrf, hue, ← hw]
  · have hrf2 : isFalsy (getField body "userRole") = false := by
      simpa using hrf
    simp [postUsersHandler, hrf2, hbe, ← hw]

/-- Witness for C5: re-posting an existing email answers 200 "User already
exists!" and leaves the collection as it was. -/
theorem C5_postUsers_existing_witness :
    postUsersHandler [[("email", Val.str "a"), ("userRole", Val.str "buyer")]]
      [("email", Val.str "a")] =
      (PostUsersRes.already 200 "User already exists!",
       [[("email", Val.str "a"), ("userRole", Val.str "buyer")]]) :=
  C5_postUsers_existing _ _ "a" (by decide) (by decide)

/-- Claim C6: GET /jwt?email=X answers 401 when no user record has email
X; when one exists it answers a signed token whose decoded claims carry
email = X and whose expiry is exactly 10 hours (36000 seconds) after
issuance, and which the verifier decodes back to X. -/
theorem C6_getJwt_spec (users : List Doc) (email secret : String)
    (now : Nat) :
    (findOne users [("email", Val.str email)] = none →
      getJwtHandler users email secret now =
        JwtRes.denied 401 "Unauthorized access")
    ∧ (∀ u, findOne users [("email", Val.str email)] = some u →
      getJwtHandler users email secret now =
        JwtRes.ok (jwtSign email secret now)
      ∧ (jwtSign email secret now).email = email
      ∧ (jwtSign email secret now).exp = (jwtSign email secret now).iat + 36000
      ∧ jwtVerify (jwtSign email secret now) secret now = some email) := by
  constructor
  · intro h; simp [getJwtHandler, h]
  · intro u hu
    refine ⟨by simp [getJwtHandler, hu], rfl, rfl, ?_⟩
    simp [jwtVerify, jwtSign]

/-- Witness for C6: an unknown email is answered 401; a known email is
answered its 10-hour token. -/
theorem C6_getJwt_spec_witness :
    getJwtHandler [] "x" "sec" 0 = JwtRes.denied 401 "Unauthorized access"
    ∧ getJwtHandler [[("email", Val.str "x")]] "x" "sec" 5 =
      JwtRes.ok (jwtSign "x" "sec" 5) :=
  ⟨(C6_getJwt_spec [] "x" "sec" 0).1 rfl,
   ((C6_getJwt_spec [[("email", Val.str "x")]] "x" "sec" 5).2
     [("email", Val.str "x")] (by decide)).1⟩

/-- Claim C10: on the role-status routes, an email with no user record is
answered status 200 with the boolean false, exactly as an existing user
whose stored role differs from the queried one is — the two cases are
indistinguishable. -/
theorem C10_roleStatus_unknown (users : List Doc) (email : String) :
    (findOne users [("email", Val.str email)] = none →
      getUsersAdminStatus users email = (200, false)
      ∧ getUsersBuyerStatus users email = (200, false)
      ∧ getUsersSellerStatus users email = (200, false))
    ∧ (∀ u, findOne users [("email", Val.str email)] = some u →
      getField u "userRole" ≠ some (Val.str "admin") →
      getUsersAdminStatus users email = (200, false))
    ∧ (∀ u, findOne users [("email", Val.str email)] = some u →
      getField u "userRole" ≠ some (Val.str "buyer") →
      getUsersBuyerStatus users email = (200, false))
    ∧ (∀ u, findOne users [("email", Val.str email)] = some u →
      getField u "userRole" ≠ some (Val.str "seller") →
      getUsersSellerStatus users email = (200, false)) := by
  refine ⟨?_, ?_, ?_, ?_⟩
  · intro h
    refine ⟨?_, ?_, ?_⟩ <;>
      simp [getUsersAdminStatus, getUsersBuyerStatus, getUsersSellerStatus,
        storedRole, h]
  · intro u hu hr
    simp [getUsersAdminStatus, storedRole, hu, hr]
  · intro u hu hr
    simp [getUsersBuyerStatus, storedRole, hu, hr]
  · intro u hu hr
    simp [getUsersSellerStatus, storedRole, hu, hr]

/-- Witness for C10: an unknown email and a buyer-role user produce the
same {isAdmin: false} shaped answer. -/
theorem C10_roleStatus_unknown_witness :
    getUsersAdminStatus [] "ghost" = (200, false)
    ∧ getUsersAdminStatus [[("email", Val.str "b"),
        ("userRole", Val.str "buyer")]] "b" = (200, false) :=
  ⟨((C10_roleStatus_unknown [] "ghost").1 rfl).1,
   (C10_roleStatus_unknown [[("email", Val.str "b"),
       ("userRole", Val.str "buyer")]] "b").2.1
     [("email", Val.str "b"), ("userRole", Val.str "buyer")]
     (by decide) (by decide)⟩

/-- Claim C7: DELETE /products/:id?email=E removes the product with the
given id exactly when its sellerEmail is E; on a mismatch the answer is a
success result with deleted count 0 (status 200, no error) and the
products collection is unchanged. -/
theorem C7_deleteProduct_ownership (products : List Doc) (pid E : String)
    (p : Doc) (hp : p ∈ products)
    (hid : getField p "_id" = some (Val.str pid))
    (hcount : products.count p = 1)
    (huniq : ∀ d ∈ products, getField d "_id" = some (Val.str pid) → d = p) :
    (getField p "sellerEmail" = some (Val.str E) →
      (deleteProductHandler products pid (some E)).1 = (200, 1)
      ∧ p ∉ (deleteProductHandler products pid (some E)).2)
    ∧ (getField p "sellerEmail" ≠ some (Val.str E) →
      (deleteProductHandler products pid (some E)).1 = (200, 0)
      ∧ (deleteProductHandler products pid (some E)).2 = products) := by
  constructor
  · intro hse
    have hm : docMatchesEq
        [("sellerEmail", Val.str E), ("_id", Val.str pid)] p = true :=
      (docMatchesEq_pair_iff p "sellerEmail" "_id" E pid).mpr ⟨hse, hid⟩
    have hu : ∀ d ∈ products, docMatchesEq
        [("sellerEmail", Val.str E), ("_id", Val.str pid)] d = true → d = p :=
      fun d hd hmd =>
        huniq d hd ((docMatchesEq_pair_iff d "sellerEmail" "_id" E pid).mp hmd).2
    have h := deleteOne_unique_match products
      [("sellerEmail", Val.str E), ("_id", Val.str pid)] p hp hm hu hcount
    constructor
    · simp [deleteProductHandler, qval, h.1]
    · simpa [deleteProductHandler, qval] using h.2
  · intro hse
    have hno : ∀ d ∈ products, docMatchesEq
        [("sellerEmail", Val.str E), ("_id", Val.str pid)] d = false := by
      intro d hd
      cases hdm : docMatchesEq
          [("sellerEmail", Val.str E), ("_id", Val.str pid)] d with
      | false => rfl
      | true =>
        have hdp :=
          huniq d hd ((docMatchesEq_pair_iff d "sellerEmail" "_id" E pid).mp hdm).2
        subst hdp
        exact absurd
          ((docMatchesEq_pair_iff d "sellerEmail" "_id" E pid).mp hdm).1 hse
    have h := deleteOne_of_no_match products
      [("sellerEmail", Val.str E), ("_id", Val.str pid)] hno
    constructor
    · simp [deleteProductHandler, qval, h]
    · simp [deleteProductHandler, qval, h]

/-- Witness for C7: deleting a product by id with another seller's email
answers (200, deletedCount 0) and leaves the collection unchanged. -/
theorem C7_deleteProduct_ownership_witness :
    (deleteProductHandler [[("_id", Val.str "p1"),
        ("sellerEmail", Val.str "a")]] "p1" (some "b")).1 = (200, 0)
    ∧ (deleteProductHandler [[("_id", Val.str "p1"),
        ("sellerEmail", Val.str "a")]] "p1" (some "b")).2 =
      [[("_id", Val.str "p1"), ("sellerEmail", Val.str "a")]] :=
  (C7_deleteProduct_ownership
    [[("_id", Val.str "p1"), ("sellerEmail", Val.str "a")]] "p1" "b"
    [("_id", Val.str "p1"), ("sellerEmail", Val.str "a")]
    (by decide) (by decide) (by decide) (by decide)).2 (by decide)

/-- Counterexample to claim C9: with a product carrying the requested _id
under a different sellerEmail — squarely inside the claim's "no product
matches both" premise, as the second conjunct records — the upsert insert
collides with the _id unique index: the driver rejects with E11000 and the
collection IS left unchanged, against the claimed unconditional
insertion. -/
theorem C9_advertisement_dupkey_counterexample :
    putAdvertisementHandler
        [[("_id", Val.str "p1"), ("sellerEmail", Val.str "other")]]
        "p1" (some "a") = UpdateResult.dupKey
    ∧ docMatchesEq [("sellerEmail", Val.str "a"), ("_id", Val.str "p1")]
        [("_id", Val.str "p1"), ("sellerEmail", Val.str "other")] = false := by
  constructor <;> decide

/-- Claim C9 as amended: when no product matches both the id and the
seller email, the upsert of PUT /products/advertisement/:id?email=
attempts to insert the document {sellerEmail, _id, isAdvertised: true}.
If no product carries that _id at all, the document is inserted and the
collection is not left unchanged; if some product carries that _id (under
another sellerEmail), the insert violates the _id unique index and fails
with the E11000 duplicate-key error, writing nothing. -/
theorem C9_putAdvertisement_upsert (products : List Doc) (pid E : String)
    (hno : ∀ p ∈ products, docMatchesEq
      [("sellerEmail", Val.str E), ("_id", Val.str pid)] p = false) :
    ((∀ p ∈ products, getField p "_id" ≠ some (Val.str pid)) →
      putAdvertisementHandler products pid (some E) =
        UpdateResult.ok (products ++
          [[("sellerEmail", Val.str E), ("_id", Val.str pid),
            ("isAdvertised", Val.bool true)]])
      ∧ putAdvertisementHandler products pid (some E) ≠
        UpdateResult.ok products)
    ∧ ((∃ p ∈ products, getField p "_id" = some (Val.str pid)) →
      putAdvertisementHandler products pid (some E) =
        UpdateResult.dupKey) := by
  have hany : products.any (fun d => docMatchesEq
      [("sellerEmail", Val.str E), ("_id", Val.str pid)] d) = false := by
    rw [List.any_eq_false]
    intro d hd
    simp [hno d hd]
  have hid : getField (upsertDoc
      [("sellerEmail", Val.str E), ("_id", Val.str pid)]
      [("isAdvertised", Val.bool true)]) "_id" = some (Val.str pid) := rfl
  have hdoc : upsertDoc [("sellerEmail", Val.str E), ("_id", Val.str pid)]
      [("isAdvertised", Val.bool true)] =
      [("sellerEmail", Val.str E), ("_id", Val.str pid),
       ("isAdvertised", Val.bool true)] := rfl
  have hh : putAdvertisementHandler products pid (some E) =
      updateOne products [("sellerEmail", Val.str E), ("_id", Val.str pid)]
        [("isAdvertised", Val.bool true)] true := rfl
  have hcases := updateOne_upsert_cases products
    [("sellerEmail", Val.str E), ("_id", Val.str pid)]
    [("isAdvertised", Val.bool true)] (Val.str pid) hany hid
  constructor
  · intro hnone
    have he := hcases.1 hnone
    rw [hdoc] at he
    refine ⟨by rw [hh, he], ?_⟩
    rw [hh, he]
    intro hcontra
    have := congrArg List.length (UpdateResult.ok.inj hcontra)
    simp at this
  · intro hex
    rw [hh]
    exact hcases.2 hex

/-- Witness for C9 as amended: a fully fresh id/email pair inserts the
synthetic advertised document; an id already present under another seller
is rejected with the duplicate-key error. -/
theorem C9_putAdvertisement_upsert_witness :
    putAdvertisementHandler [[("_id", Val.str "p9"),
        ("sellerEmail", Val.str "x")]] "p1" (some "a") =
      UpdateResult.ok
        [[("_id", Val.str "p9"), ("sellerEmail", Val.str "x")],
         [("sellerEmail", Val.str "a"), ("_id", Val.str "p1"),
          ("isAdvertised", Val.bool true)]]
    ∧ putAdvertisementHandler [[("_id", Val.str "p2"),
        ("sellerEmail", Val.str "other")]] "p2" (some "a") =
      UpdateResult.dupKey :=
  ⟨((C9_putAdvertisement_upsert
      [[("_id", Val.str "p9"), ("sellerEmail", Val.str "x")]] "p1" "a"
      (by decide)).1 (by decide)).1,
   (C9_putAdvertisement_upsert
      [[("_id", Val.str "p2"), ("sellerEmail", Val.str "other")]] "p2" "a"
      (by decide)).2 (by decide)⟩

/-- Counterexample to claim C3: a PUT /users/seller/:id whose email query
parameter ("bob") differs from the target user's stored email ("alice")
leaves the product whose sellerEmail equals the target's email unchanged —
it never receives the userRole field — and instead upserts a brand-new
document for "bob", so "every product whose sellerEmail equals the email
of that target user is updated and no other product is modified" fails. -/
theorem C3_cascade_counterexample :
    (putUsersSellerHandler
        [[("_id", Val.str "u1"), ("email", Val.str "alice")]]
        [[("_id", Val.str "p1"), ("sellerEmail", Val.str "alice")]]
        "u1" (some "bob") [("userRole", Val.str "seller")]).2 =
      [[("_id", Val.str "p1"), ("sellerEmail", Val.str "alice")],
       [("sellerEmail", Val.str "bob"), ("userRole", Val.str "seller")]]
    ∧ getField [("_id", Val.str "p1"), ("sellerEmail", Val.str "alice")]
        "userRole" = none
    ∧ getField [("_id", Val.str "p1"), ("sellerEmail", Val.str "alice")]
        "sellerEmail" =
      getField [("_id", Val.str "u1"), ("email", Val.str "alice")] "email" := by
  refine ⟨?_, ?_, ?_⟩ <;> decide

/-- Claim C3 as amended: the cascade is keyed on the email *query
parameter*: every product whose sellerEmail equals that parameter receives
the same field set, every other existing product is returned unchanged,
and when no product matches, the upsert inserts a new document made of
that sellerEmail and the field set. -/
theorem C3_putUsersSeller_cascade (users products : List Doc)
    (uid qe : String) (body : List (String × Val)) (p : Doc)
    (hp : p ∈ products) :
    (getField p "sellerEmail" = some (Val.str qe) →
      applySet body p ∈
        (putUsersSellerHandler users products uid (some qe) body).2)
    ∧ (getField p "sellerEmail" ≠ some (Val.str qe) →
      p ∈ (putUsersSellerHandler users products uid (some qe) body).2)
    ∧ ((∀ d ∈ products, getField d "sellerEmail" ≠ some (Val.str qe)) →
      (putUsersSellerHandler users products uid (some qe) body).2 =
        products ++ [applySet body [("sellerEmail", Val.str qe)]]) := by
  have hiff : ∀ d : Doc,
      docMatchesEq [("sellerEmail", Val.str qe)] d = true ↔
        getField d "sellerEmail" = some (Val.str qe) := by
    intro d
    rw [docMatchesEq_single]
    exact mongoEqMatch_str_iff qe (getField d "sellerEmail")
  have hres : (putUsersSellerHandler users products uid (some qe) body).2 =
      updateMany products [("sellerEmail", Val.str qe)] body true := rfl
  refine ⟨?_, ?_, ?_⟩
  · intro hse
    have hm : docMatchesEq [("sellerEmail", Val.str qe)] p = true :=
      (hiff p).mpr hse
    have hany : products.any
        (fun d => docMatchesEq [("sellerEmail", Val.str qe)] d) = true :=
      List.any_eq_true.mpr ⟨p, hp, hm⟩
    rw [hres]
    simp only [updateMany, hany, if_true]
    exact List.mem_map.mpr ⟨p, hp, by rw [hm]; simp⟩
  · intro hse
    have hm : docMatchesEq [("sellerEmail", Val.str qe)] p = false := by
      cases hdm : docMatchesEq [("sellerEmail", Val.str qe)] p with
      | false => rfl
      | true => exact absurd ((hiff p).mp hdm) hse
    rw [hres]
    by_cases hany : products.any
        (fun d => docMatchesEq [("sellerEmail", Val.str qe)] d) = true
    · simp only [updateMany, hany, if_true]
      exact List.mem_map.mpr ⟨p, hp, by rw [hm]; simp⟩
    · have hanyf : products.any
          (fun d => docMatchesEq [("sellerEmail", Val.str qe)] d) = false := by
        simpa using hany
      simp only [updateMany, hanyf]
      simp [List.mem_append, hp]
  · intro hall
    have hanyf : products.any
        (fun d => docMatchesEq [("sellerEmail", Val.str qe)] d) = false := by
      rw [List.any_eq_false]
      intro d hd
      intro hdm
      exact absurd ((hiff d).mp hdm) (hall d hd)
    rw [hres]
    simp only [updateMany, hanyf]
    rfl

/-- Witness for C3 as amended: when the query email matches the product's
sellerEmail, the product receives the field set. -/
theorem C3_putUsersSeller_cascade_witness :
    applySet [("userRole", Val.str "seller")]
        [("_id", Val.str "p1"), ("sellerEmail", Val.str "bob")] ∈
      (putUsersSellerHandler
        [[("_id", Val.str "u1"), ("email", Val.str "bob")]]
        [[("_id", Val.str "p1"), ("sellerEmail", Val.str "bob")]]
        "u1" (some "bob") [("userRole", Val.str "seller")]).2 :=
  (C3_putUsersSeller_cascade
    [[("_id", Val.str "u1"), ("email", Val.str "bob")]]
    [[("_id", Val.str "p1"), ("sellerEmail", Val.str "bob")]]
    "u1" "bob" [("userRole", Val.str "seller")]
    [("_id", Val.str "p1"), ("sellerEmail", Val.str "bob")]
    (by decide)).1 (by decide)

/-- Counterexample to claim C8: with the limit parameter supplied as "0"
the response is the whole collection — here 1 document, not at most 0 —
because `parseInt` gives 0, which is falsy, so no limit is applied. -/
theorem C8_getCategories_limit_counterexample :
    getCategoriesHandler [[("name", Val.str "c")]] (some "0") =
      [[("name", Val.str "c")]]
    ∧ ¬((getCategoriesHandler [[("name", Val.str "c")]] (some "0")).length
        ≤ 0) := by
  constructor <;> decide

/-- Claim C8 as amended: a supplied limit that parses to a nonzero integer
N bounds the response by |N| documents; an omitted limit, a limit with no
leading digits (parseInt NaN) or a limit of 0 — both falsy — return every
category document. -/
theorem C8_getCategories_limit (cats : List Doc) (lp : Option String)
    (n : Int) (s : String) :
    (lp = some s → parseIntJS s = some n → n ≠ 0 →
      (getCategoriesHandler cats lp).length ≤ n.natAbs)
    ∧ (lp = none → getCategoriesHandler cats lp = cats)
    ∧ (lp = some s → parseIntJS s = none → getCategoriesHandler cats lp = cats)
    ∧ (lp = some s → parseIntJS s = some 0 →
      getCategoriesHandler cats lp = cats) := by
  refine ⟨?_, ?_, ?_, ?_⟩
  · intro hl hps hn
    subst hl
    simp only [getCategoriesHandler, hps, hn, if_false]
    simp only [List.length_take]
    exact min_le_left _ _
  · intro h
    subst h
    rfl
  · intro hl hps
    subst hl
    simp [getCategoriesHandler, hps]
  · intro hl hps
    subst hl
    simp [getCategoriesHandler, hps]

/-- Witness for C8 as amended: limit "2" over three categories answers at
most 2 documents; no limit answers all of them; a hexadecimal limit
"0x10" parses to 16 (truthy) and bounds the response by 16. -/
theorem C8_getCategories_limit_witness :
    (getCategoriesHandler [[("a", Val.str "1")], [("a", Val.str "2")],
      [("a", Val.str "3")]] (some "2")).length ≤ 2
    ∧ getCategoriesHandler [[("a", Val.str "1")]] none =
      [[("a", Val.str "1")]]
    ∧ (getCategoriesHandler [[("a", Val.str "1")], [("a", Val.str "2")],
      [("a", Val.str "3")]] (some "0x10")).length ≤ 16 :=
  ⟨(C8_getCategories_limit [[("a", Val.str "1")], [("a", Val.str "2")],
      [("a", Val.str "3")]] (some "2") 2 "2").1 rfl (by decide) (by decide),
   (C8_getCategories_limit [[("a", Val.str "1")]] none 1 "").2.1 rfl,
   (C8_getCategories_limit [[("a", Val.str "1")], [("a", Val.str "2")],
      [("a", Val.str "3")]] (some "0x10") 16 "0x10").1 rfl (by decide)
     (by decide)⟩

end XtraEquip
